import Mathlib

/-!
Verification of the decision/risk engine and dead-man-switch monitor of an
automated crypto trading controller.

Shallow embedding conventions:
- Rust f64 values are modelled as rationals; a possibly-NaN f64 is modelled
  by the type FP = Option Rat, where none stands for NaN.  Comparisons on FP
  return false when either side is NaN, mirroring IEEE-754 comparison
  semantics; multiplication propagates NaN.
- Rust usize / u64 are modelled as Nat (saturating_sub is Nat subtraction);
  u32 counters wrap modulo 2^32 as in release builds.
- The RFC3339 entry_time string of a position is represented by its parse
  result: some t (Unix seconds) when the string parses, none when it does
  not (chrono parsing is an external library call).
- Effects (current wall-clock time, the brokerage call) are passed in / read
  off explicitly: check_exit takes now as a parameter, and the watchdog
  check_health is represented by the number of close_all_positions calls it
  issues in one tick.
-/

namespace Trading

/-- A floating point value that may be NaN: none stands for NaN. -/
abbrev FP := Option ℚ

/-- IEEE-style multiplication: NaN propagates. -/
def fmul (x y : FP) : FP :=
  match x, y with
  | some a, some b => some (a * b)
  | _, _ => none

/-- IEEE-style comparison: any comparison with NaN is false. -/
def fle (x y : FP) : Bool :=
  match x, y with
  | some a, some b => decide (a ≤ b)
  | _, _ => false

/-- Capital tier classification (capital_tier.rs, enum CapitalTier). -/
inductive CapitalTier
  | Micro
  | Tiny
  | Small
  | Medium
  | Standard
  | Large
deriving DecidableEq, Repr

/-- Determine tier from portfolio value (capital_tier.rs, from_portfolio). -/
def CapitalTier.from_portfolio (value : ℚ) : CapitalTier :=
  if value < 100 then CapitalTier.Micro
  else if value < 500 then CapitalTier.Tiny
  else if value < 2000 then CapitalTier.Small
  else if value < 5000 then CapitalTier.Medium
  else if value < 25000 then CapitalTier.Standard
  else CapitalTier.Large

/-- Maximum positions allowed for this tier (capital_tier.rs, max_positions). -/
def CapitalTier.max_positions : CapitalTier → ℕ
  | CapitalTier.Micro => 0
  | CapitalTier.Tiny => 1
  | CapitalTier.Small => 2
  | CapitalTier.Medium => 3
  | CapitalTier.Standard => 4
  | CapitalTier.Large => 5

/-- Maximum percent of portfolio in a single position (capital_tier.rs). -/
def CapitalTier.max_position_percent : CapitalTier → ℚ
  | CapitalTier.Micro => 0
  | CapitalTier.Tiny => 80
  | CapitalTier.Small => 50
  | CapitalTier.Medium => 35
  | CapitalTier.Standard => 25
  | CapitalTier.Large => 20

/-- Risk percent per trade (capital_tier.rs, risk_per_trade_percent). -/
def CapitalTier.risk_per_trade_percent : CapitalTier → ℚ
  | CapitalTier.Micro => 0
  | CapitalTier.Tiny => 1/2
  | CapitalTier.Small => 1
  | CapitalTier.Medium => 3/2
  | CapitalTier.Standard => 2
  | CapitalTier.Large => 2

/-- Whether trading is allowed at this tier (capital_tier.rs, can_trade). -/
def CapitalTier.can_trade : CapitalTier → Bool
  | CapitalTier.Micro => false
  | _ => true

/-- Entry threshold multiplier (capital_tier.rs). -/
def CapitalTier.entry_threshold_multiplier : CapitalTier → ℚ
  | CapitalTier.Micro => 3/2
  | CapitalTier.Tiny => 13/10
  | CapitalTier.Small => 115/100
  | CapitalTier.Medium => 1
  | CapitalTier.Standard => 1
  | CapitalTier.Large => 19/20

/-- Tier name (capital_tier.rs, name). -/
def CapitalTier.name : CapitalTier → String
  | CapitalTier.Micro => "MICRO"
  | CapitalTier.Tiny => "TINY"
  | CapitalTier.Small => "SMALL"
  | CapitalTier.Medium => "MEDIUM"
  | CapitalTier.Standard => "STANDARD"
  | CapitalTier.Large => "LARGE"

/-- Tier recommendation message (capital_tier.rs, recommendation). -/
def CapitalTier.recommendation : CapitalTier → String
  | CapitalTier.Micro => "MICRO: Insufficient capital. Add funds to begin trading."
  | CapitalTier.Tiny => "TINY: Ultra-conservative mode."
  | CapitalTier.Small => "SMALL: Conservative mode."
  | CapitalTier.Medium => "MEDIUM: Balanced mode."
  | CapitalTier.Standard => "STANDARD: Full trading capabilities."
  | CapitalTier.Large => "LARGE: Full capabilities with enhanced diversification."

/-- Tier-adjusted parameters (capital_tier.rs, struct TierParameters). -/
structure TierParameters where
  tier : CapitalTier
  max_positions : ℕ
  max_position_percent : ℚ
  risk_per_trade_percent : ℚ
  can_trade : Bool
  entry_threshold_multiplier : ℚ
  recommendation : String

/-- Tier parameters for a portfolio value (capital_tier.rs, for_portfolio). -/
def TierParameters.for_portfolio (value : ℚ) : TierParameters :=
  let tier := CapitalTier.from_portfolio value
  { tier := tier
    max_positions := tier.max_positions
    max_position_percent := tier.max_position_percent
    risk_per_trade_percent := tier.risk_per_trade_percent
    can_trade := tier.can_trade
    entry_threshold_multiplier := tier.entry_threshold_multiplier
    recommendation := tier.recommendation }

/-- Fee tier (capital_tier.rs, struct FeeTier). -/
structure FeeTier where
  taker_fee_percent : ℚ
  maker_fee_percent : ℚ
deriving DecidableEq

/-- Fee tier from 30-day volume (capital_tier.rs, from_volume). -/
def FeeTier.from_volume (volume_30d : ℚ) : FeeTier :=
  if volume_30d < 1000 then { taker_fee_percent := 60/100, maker_fee_percent := 40/100 }
  else if volume_30d < 10000 then { taker_fee_percent := 40/100, maker_fee_percent := 25/100 }
  else if volume_30d < 50000 then { taker_fee_percent := 25/100, maker_fee_percent := 15/100 }
  else { taker_fee_percent := 20/100, maker_fee_percent := 10/100 }

/-- Round-trip fee percentage (capital_tier.rs, round_trip_percent). -/
def FeeTier.round_trip_percent (f : FeeTier) : ℚ :=
  f.taker_fee_percent * 2

/-- Minimum profitable take-profit (capital_tier.rs, min_profitable_tp). -/
def FeeTier.min_profitable_tp (f : FeeTier) (target_net_profit_percent : ℚ) : ℚ :=
  f.round_trip_percent + target_net_profit_percent

/-- The value of f64::MAX, the sentinel returned for an infeasible trade. -/
def f64MAX : ℚ := (2 ^ 53 - 1) * 2 ^ 971

/-- Minimum position size for a worthwhile trade
(capital_tier.rs, min_position_for_profit). -/
def FeeTier.min_position_for_profit (f : FeeTier)
    (expected_move_percent min_profit_usd : ℚ) : ℚ :=
  let net_profit_percent := expected_move_percent - f.round_trip_percent
  if net_profit_percent ≤ 0 then f64MAX
  else min_profit_usd / (net_profit_percent / 100)

/-- The configuration fields consumed by the strategy engine
(config.rs, struct Config; unused plumbing fields omitted). -/
structure Config where
  take_profit_percent : ℚ
  stop_loss_percent : ℚ
  trailing_stop_percent : ℚ
  min_position_usd : ℚ
  cash_reserve_percent : ℚ
  max_total_positions : ℕ
  max_position_age_hours : ℚ

/-- A trading position (types.rs, struct Position).  entry_time is
represented by the chrono RFC3339 parse result of the stored string: some t
(Unix seconds) when the string parses, none when it does not.  The
high_water_mark f64 may be NaN, hence Option FP. -/
structure Position where
  symbol : String
  quantity : ℚ
  entry_price : ℚ
  entry_time : Option ℤ
  high_water_mark : Option FP
  stop_loss_price : Option ℚ
  take_profit_price : Option ℚ
  entry_volatility : Option ℚ

/-- Reason for exiting a position (strategy.rs, enum ExitReason). -/
inductive ExitReason
  | StopLoss
  | TakeProfit
  | TrailingStop
  | TimeExpired
  | Manual
deriving DecidableEq, Repr

/-- The stop-loss condition of check_exit (strategy.rs lines 140-149):
position-specific price if set, else the config percentage fallback. -/
def sl_hit (cfg : Config) (p : Position) (current_price : ℚ) : Bool :=
  match p.stop_loss_price with
  | some sl_price => decide (current_price ≤ sl_price)
  | none =>
      decide ((current_price - p.entry_price) / p.entry_price * 100 ≤ -cfg.stop_loss_percent)

/-- The take-profit condition of check_exit (strategy.rs lines 152-161). -/
def tp_hit (cfg : Config) (p : Position) (current_price : ℚ) : Bool :=
  match p.take_profit_price with
  | some tp_price => decide (tp_price ≤ current_price)
  | none =>
      decide (cfg.take_profit_percent ≤ (current_price - p.entry_price) / p.entry_price * 100)

/-- The trailing-stop condition of check_exit (strategy.rs lines 168-173):
fires when current_price is at or below HWM * (1 - trailing_stop_percent/100);
a NaN high water mark makes the comparison false. -/
def trailing_hit (cfg : Config) (p : Position) (current_price : ℚ) : Bool :=
  match p.high_water_mark with
  | some high_water_mark =>
      fle (some current_price) (fmul high_water_mark (some (1 - cfg.trailing_stop_percent / 100)))
  | none => false

/-- The time-based exit condition of check_exit (strategy.rs lines 176-184):
skipped when max_position_age_hours is not positive or entry_time is
unparsable. -/
def time_hit (cfg : Config) (p : Position) (now : ℤ) : Bool :=
  decide (0 < cfg.max_position_age_hours) &&
    (match p.entry_time with
     | some entry_time =>
         decide (cfg.max_position_age_hours ≤ ((now - entry_time : ℤ) : ℚ) / 3600)
     | none => false)

/-- Exit evaluator (strategy.rs, check_exit): the four exit rules are tried
in fixed order with early return; now is the wall-clock time read inside the
time-based branch. -/
def check_exit (cfg : Config) (p : Position) (current_price : ℚ) (now : ℤ) :
    Option ExitReason :=
  if sl_hit cfg p current_price then some ExitReason.StopLoss
  else if tp_hit cfg p current_price then some ExitReason.TakeProfit
  else if trailing_hit cfg p current_price then some ExitReason.TrailingStop
  else if time_hit cfg p now then some ExitReason.TimeExpired
  else none

/-- Result of position size calculation (strategy.rs, PositionSizeResult). -/
structure PositionSizeResult where
  size : ℚ
  risk_based : ℚ
  volatility_adjusted : ℚ
  max_per_position : ℚ
  available_after_reserve : ℚ
  can_trade : Bool
  reason : Option String
  tier : Option CapitalTier

/-- The available_for_trading intermediate of calculate_position_size
(strategy.rs lines 217-218): portfolio minus cash reserve, floored at 0. -/
def available_for_trading_of (cfg : Config) (total_portfolio : ℚ) : ℚ :=
  max (total_portfolio - total_portfolio * (cfg.cash_reserve_percent / 100)) 0

/-- The risk_based_size intermediate of calculate_position_size
(strategy.rs lines 220-230). -/
def risk_based_size_of (cfg : Config) (total_portfolio : ℚ) : ℚ :=
  let risk_amount :=
    total_portfolio * ((TierParameters.for_portfolio total_portfolio).risk_per_trade_percent / 100)
  if 0 < cfg.stop_loss_percent / 100 then risk_amount / (cfg.stop_loss_percent / 100)
  else available_for_trading_of cfg total_portfolio * (25/100)

/-- The volatility_adjusted intermediate of calculate_position_size
(strategy.rs line 233): the volatility factor is floored at 0.5. -/
def volatility_adjusted_of (cfg : Config) (total_portfolio volatility_factor : ℚ) : ℚ :=
  risk_based_size_of cfg total_portfolio / max volatility_factor (1/2)

/-- The max_per_position intermediate of calculate_position_size and
max_new_positions (strategy.rs lines 236-237 and 284-285). -/
def max_per_position_of (total_portfolio : ℚ) : ℚ :=
  total_portfolio * ((TierParameters.for_portfolio total_portfolio).max_position_percent / 100)

/-- The capped_size intermediate of calculate_position_size
(strategy.rs lines 240-243): the minimum of the volatility-adjusted size and
the three caps. -/
def capped_size_of (cfg : Config) (total_portfolio available_usd volatility_factor : ℚ) : ℚ :=
  min (min (min (volatility_adjusted_of cfg total_portfolio volatility_factor)
                (max_per_position_of total_portfolio))
           available_usd)
      (available_for_trading_of cfg total_portfolio)

/-- Position sizing (strategy.rs, calculate_position_size).  The lifted
intermediates above are exactly its let bindings. -/
def calculate_position_size (cfg : Config)
    (total_portfolio available_usd volatility_factor : ℚ) : PositionSizeResult :=
  let tier_params := TierParameters.for_portfolio total_portfolio
  if tier_params.can_trade = false then
    { size := 0
      risk_based := 0
      volatility_adjusted := 0
      max_per_position := 0
      available_after_reserve := 0
      can_trade := false
      reason := some (tier_params.tier.name ++ " - " ++ tier_params.recommendation)
      tier := some tier_params.tier }
  else
    let final_size :=
      if cfg.min_position_usd ≤ capped_size_of cfg total_portfolio available_usd volatility_factor
      then capped_size_of cfg total_portfolio available_usd volatility_factor
      else 0
    { size := final_size
      risk_based := risk_based_size_of cfg total_portfolio
      volatility_adjusted := volatility_adjusted_of cfg total_portfolio volatility_factor
      max_per_position := max_per_position_of total_portfolio
      available_after_reserve := available_for_trading_of cfg total_portfolio
      can_trade := decide (cfg.min_position_usd ≤ final_size)
      reason :=
        if final_size < cfg.min_position_usd
        then some ("Below minimum (Tier: " ++ tier_params.tier.name ++ ")")
        else none
      tier := some tier_params.tier }

/-- The effective_cap intermediate of max_new_positions
(strategy.rs lines 275-277): min of the tier cap and the hard cap. -/
def effective_cap_of (cfg : Config) (total_portfolio : ℚ) : ℕ :=
  min (TierParameters.for_portfolio total_portfolio).max_positions cfg.max_total_positions

/-- The capital_based_new intermediate of max_new_positions
(strategy.rs lines 286-298); the f64-to-usize cast saturates below at 0,
which Int.toNat models. -/
def capital_based_of (cfg : Config) (total_portfolio : ℚ) (current_positions : ℕ) : ℕ :=
  let max_per_position := max_per_position_of total_portfolio
  let reserve := total_portfolio * (cfg.cash_reserve_percent / 100)
  let positions_value := (current_positions : ℚ) * max_per_position
  let available_for_new := max (total_portfolio - positions_value - reserve) 0
  if cfg.min_position_usd < max_per_position
  then (Int.floor (available_for_new / max_per_position)).toNat
  else 0

/-- Position count limiter (strategy.rs, max_new_positions); usize
saturating_sub is Nat subtraction. -/
def max_new_positions (cfg : Config) (total_portfolio : ℚ) (current_positions : ℕ) : ℕ :=
  if effective_cap_of cfg total_portfolio ≤ current_positions then 0
  else
    min (effective_cap_of cfg total_portfolio - current_positions)
        (max (capital_based_of cfg total_portfolio current_positions) 1)

/-- The u32 modulus: daily_trades is a u32 and wraps in release builds. -/
def u32_size : ℕ := 4294967296

/-- Persistent trading state (types.rs, struct TradingStateData). -/
structure TradingStateData where
  enabled : Bool
  positions : List Position
  last_cycle_time : Option String
  total_trades : ℕ
  total_pnl : ℚ
  consecutive_errors : ℕ
  daily_trades : ℕ
  last_trade_day : Option String

/-- Daily trade counter update (types.rs, increment_daily_trades): a day
change resets the counter before the unconditional increment; the u32
increment wraps modulo 2^32. -/
def increment_daily_trades (s : TradingStateData) (today : String) : TradingStateData :=
  let s1 :=
    if s.last_trade_day ≠ some today
    then { s with daily_trades := 0, last_trade_day := some today }
    else s
  { s1 with daily_trades := (s1.daily_trades + 1) % u32_size }

/-- The watchdog staleness threshold in milliseconds
(watchdog-worker lib.rs line 144). -/
def watchdog_threshold_ms : ℕ := 180000

/-- One watchdog tick (watchdog-worker lib.rs, check_health), represented by
the number of close_all_positions calls it issues: none for a missing
heartbeat, and one call exactly when elapsed = now - last (saturating)
strictly exceeds the threshold.  The call is issued once whether or not the
brokerage reports success. -/
def check_health_close_calls (last_beat_opt : Option ℕ) (now : ℕ) : ℕ :=
  match last_beat_opt with
  | some last_timestamp =>
      if watchdog_threshold_ms < now - last_timestamp then 1 else 0
  | none => 0

/-- The strategy test configuration (strategy.rs, tests::test_config),
used to instantiate witnesses on concrete inputs. -/
def cfg0 : Config :=
  { take_profit_percent := 3/2
    stop_loss_percent := 1
    trailing_stop_percent := 1/2
    min_position_usd := 10
    cash_reserve_percent := 15
    max_total_positions := 8
    max_position_age_hours := 48 }


/-- Fixture: an open position with explicit exit bands and a high water mark
(mirrors strategy.rs tests), used for C2's witness. -/
def pos2 : Position :=
  { symbol := "BTC-USD", quantity := 1/1000, entry_price := 50000,
    entry_time := some 0, high_water_mark := some (some 51000),
    stop_loss_price := some 49000, take_profit_price := some 52000,
    entry_volatility := none }

/-- Fixture: the rallied-then-crashed position of the trailing-stop tests
(entry 50000, HWM 51000, SL 48000, TP 53000), used for C3's witness. -/
def pos3 : Position :=
  { symbol := "BTC-USD", quantity := 1/1000, entry_price := 50000,
    entry_time := some 0, high_water_mark := some (some 51000),
    stop_loss_price := some 48000, take_profit_price := some 53000,
    entry_volatility := none }

/-- Fixture: a position with an unparsable entry_time and a NaN high water
mark, used for C7's witness. -/
def pos7 : Position :=
  { symbol := "BTC-USD", quantity := 1/1000, entry_price := 50000,
    entry_time := none, high_water_mark := some none,
    stop_loss_price := some 49000, take_profit_price := some 52000,
    entry_volatility := none }

/-- Fixture: a state whose u32 daily counter sits at u32::MAX on day d0,
used for C10's counterexample. -/
def d0 : String := "2026-02-03"

def s_wrap : TradingStateData :=
  { enabled := true, positions := [], last_cycle_time := none, total_trades := 7,
    total_pnl := 3, consecutive_errors := 0, daily_trades := 4294967295,
    last_trade_day := some d0 }

/-- Fixture: a fresh state that has not traded today, used for C10's witness. -/
def s_fresh : TradingStateData :=
  { enabled := true, positions := [], last_cycle_time := none, total_trades := 4,
    total_pnl := 2, consecutive_errors := 1, daily_trades := 9,
    last_trade_day := none }

/-- If a tier allows trading, the per-position cap is nonnegative (the
portfolio is then at least 100 and every tier percentage is nonnegative). -/
lemma max_per_position_of_nonneg (total_portfolio : ℚ)
    (h : (TierParameters.for_portfolio total_portfolio).can_trade = true) :
    0 ≤ max_per_position_of total_portfolio := by
  have h100 : ¬ total_portfolio < 100 := by
    intro hlt
    simp [TierParameters.for_portfolio, CapitalTier.from_portfolio, hlt,
      CapitalTier.can_trade] at h
  have hpct : 0 ≤ (TierParameters.for_portfolio total_portfolio).max_position_percent := by
    simp only [TierParameters.for_portfolio]
    cases CapitalTier.from_portfolio total_portfolio <;>
      simp [CapitalTier.max_position_percent]
  unfold max_per_position_of
  exact mul_nonneg (by linarith) (div_nonneg hpct (by norm_num))

/-- A tier that allows trading only arises from a portfolio of at least 100. -/
lemma tier_can_trade_portfolio (total_portfolio : ℚ)
    (h : (TierParameters.for_portfolio total_portfolio).can_trade = true) :
    ¬ total_portfolio < 100 := by
  intro hlt
  simp [TierParameters.for_portfolio, CapitalTier.from_portfolio, hlt,
    CapitalTier.can_trade] at h

/-- In a trading tier the risk-based size is nonnegative: the portfolio is
at least 100 and every tier risk percentage is nonnegative. -/
lemma risk_based_size_of_nonneg (cfg : Config) (total_portfolio : ℚ)
    (h : (TierParameters.for_portfolio total_portfolio).can_trade = true) :
    0 ≤ risk_based_size_of cfg total_portfolio := by
  have h100 := tier_can_trade_portfolio total_portfolio h
  have hrisk : 0 ≤ (TierParameters.for_portfolio total_portfolio).risk_per_trade_percent := by
    simp only [TierParameters.for_portfolio]
    cases CapitalTier.from_portfolio total_portfolio <;>
      norm_num [CapitalTier.risk_per_trade_percent]
  unfold risk_based_size_of
  split_ifs with hsl
  · exact div_nonneg (mul_nonneg (by linarith) (div_nonneg hrisk (by norm_num)))
      (le_of_lt hsl)
  · exact mul_nonneg (le_max_right _ _) (by norm_num)

/-- In a trading tier, with nonnegative available cash, the capped size is
nonnegative: it is the minimum of four nonnegative quantities. -/
lemma capped_size_of_nonneg (cfg : Config)
    (total_portfolio available_usd volatility_factor : ℚ)
    (hcash : 0 ≤ available_usd)
    (h : (TierParameters.for_portfolio total_portfolio).can_trade = true) :
    0 ≤ capped_size_of cfg total_portfolio available_usd volatility_factor := by
  have hva : 0 ≤ volatility_adjusted_of cfg total_portfolio volatility_factor := by
    unfold volatility_adjusted_of
    exact div_nonneg (risk_based_size_of_nonneg cfg total_portfolio h)
      (le_trans (by norm_num) (le_max_right volatility_factor (1/2)))
  have hmp := max_per_position_of_nonneg total_portfolio h
  have haft : (0:ℚ) ≤ available_for_trading_of cfg total_portfolio := le_max_right _ _
  unfold capped_size_of
  exact le_min (le_min (le_min hva hmp) hcash) haft

/-- Claim C1 (amended): in one watchdog tick, a missing heartbeat causes no
remedial action; elapsed at or below the 180s threshold causes no action; and
elapsed strictly above the threshold issues exactly one close_all_positions
call. -/
theorem check_health_spec (now last : ℕ) :
    check_health_close_calls none now = 0
  ∧ (now - last ≤ watchdog_threshold_ms → check_health_close_calls (some last) now = 0)
  ∧ (watchdog_threshold_ms < now - last → check_health_close_calls (some last) now = 1) := by
  refine ⟨rfl, ?_, ?_⟩
  · intro h
    simp [check_health_close_calls, Nat.not_lt.mpr h]
  · intro h
    simp [check_health_close_calls, h]

theorem check_health_spec_witness : check_health_close_calls (some 0) 400000 = 1 :=
  (check_health_spec 400000 0).2.2 (by norm_num [watchdog_threshold_ms])

/-- Claim C1 counterexample: with elapsed exactly equal to the 180s
threshold (at or above it, as the claim reads), the tick issues no
close_all_positions call at all. -/
theorem check_health_boundary_cex :
    watchdog_threshold_ms ≤ 180000 - 0 ∧ check_health_close_calls (some 0) 180000 ≠ 1 := by
  refine ⟨by norm_num [watchdog_threshold_ms], ?_⟩
  norm_num [check_health_close_calls, watchdog_threshold_ms]

/-- Claim C2: when the current price is at or below a set stop-loss price
and also at or below the trailing trigger, check_exit returns StopLoss; and
in general each exit reason is returned exactly when its condition is the
first to hold in the order StopLoss, TakeProfit, TrailingStop, TimeExpired. -/
theorem check_exit_priority (cfg : Config) (p : Position) (current_price : ℚ) (now : ℤ) :
    (∀ sl_price hwm, p.stop_loss_price = some sl_price →
        p.high_water_mark = some (some hwm) →
        current_price ≤ sl_price →
        current_price ≤ hwm * (1 - cfg.trailing_stop_percent / 100) →
        check_exit cfg p current_price now = some ExitReason.StopLoss)
  ∧ (check_exit cfg p current_price now = some ExitReason.StopLoss ↔
        sl_hit cfg p current_price = true)
  ∧ (check_exit cfg p current_price now = some ExitReason.TakeProfit ↔
        sl_hit cfg p current_price = false ∧ tp_hit cfg p current_price = true)
  ∧ (check_exit cfg p current_price now = some ExitReason.TrailingStop ↔
        sl_hit cfg p current_price = false ∧ tp_hit cfg p current_price = false
        ∧ trailing_hit cfg p current_price = true)
  ∧ (check_exit cfg p current_price now = some ExitReason.TimeExpired ↔
        sl_hit cfg p current_price = false ∧ tp_hit cfg p current_price = false
        ∧ trailing_hit cfg p current_price = false ∧ time_hit cfg p now = true) := by
  refine ⟨?_, ?_⟩
  · intro sl_price hwm hslp hhwm hle htrig
    have hsl : sl_hit cfg p current_price = true := by
      simp [sl_hit, hslp]
      exact hle
    simp [check_exit, hsl]
  · cases hsl : sl_hit cfg p current_price <;>
      cases htp : tp_hit cfg p current_price <;>
        cases htr : trailing_hit cfg p current_price <;>
          cases hti : time_hit cfg p now <;>
            simp [check_exit, hsl, htp, htr, hti]

theorem check_exit_priority_witness :
    check_exit cfg0 pos2 48000 0 = some ExitReason.StopLoss :=
  (check_exit_priority cfg0 pos2 48000 0).1 49000 51000 rfl rfl (by norm_num)
    (by norm_num [cfg0])

/-- Claim C3: whenever the stop-loss and take-profit checks do not fire and
the price is at or below the trailing trigger, check_exit returns
TrailingStop, even with the price strictly below entry (negative PnL). -/
theorem trailing_stop_negative_pnl (cfg : Config) (p : Position) (current_price : ℚ)
    (now : ℤ) (hwm : ℚ)
    (hhwm : p.high_water_mark = some (some hwm))
    (_hneg : current_price < p.entry_price)
    (hsl : sl_hit cfg p current_price = false)
    (htp : tp_hit cfg p current_price = false)
    (htrig : current_price ≤ hwm * (1 - cfg.trailing_stop_percent / 100)) :
    check_exit cfg p current_price now = some ExitReason.TrailingStop := by
  have htr : trailing_hit cfg p current_price = true := by
    simp [trailing_hit, hhwm, fmul, fle]
    exact htrig
  simp [check_exit, hsl, htp, htr]

theorem trailing_stop_negative_pnl_witness :
    check_exit cfg0 pos3 49500 0 = some ExitReason.TrailingStop :=
  trailing_stop_negative_pnl cfg0 pos3 49500 0 51000 rfl (by norm_num [pos3])
    (by norm_num [sl_hit, pos3]) (by norm_num [tp_hit, pos3]) (by norm_num [cfg0])

/-- Claim C7: check_exit degrades safely on malformed inputs: an unparsable
entry_time means the time-based rule can never fire, and a NaN high water
mark means the trailing-stop rule can never fire. -/
theorem check_exit_degrades (cfg : Config) (p : Position) (current_price : ℚ) (now : ℤ) :
    (p.entry_time = none →
        check_exit cfg p current_price now ≠ some ExitReason.TimeExpired)
  ∧ (p.high_water_mark = some none →
        check_exit cfg p current_price now ≠ some ExitReason.TrailingStop) := by
  constructor
  · intro h
    have hti : time_hit cfg p now = false := by simp [time_hit, h]
    cases hsl : sl_hit cfg p current_price <;>
      cases htp : tp_hit cfg p current_price <;>
        cases htr : trailing_hit cfg p current_price <;>
          simp [check_exit, hsl, htp, htr, hti]
  · intro h
    have htr : trailing_hit cfg p current_price = false := by
      simp [trailing_hit, h, fmul, fle]
    cases hsl : sl_hit cfg p current_price <;>
      cases htp : tp_hit cfg p current_price <;>
        cases hti : time_hit cfg p now <;>
          simp [check_exit, hsl, htp, hti, htr]

theorem check_exit_degrades_witness :
    check_exit cfg0 pos7 50500 0 ≠ some ExitReason.TimeExpired
  ∧ check_exit cfg0 pos7 50500 0 ≠ some ExitReason.TrailingStop :=
  ⟨(check_exit_degrades cfg0 pos7 50500 0).1 rfl,
   (check_exit_degrades cfg0 pos7 50500 0).2 rfl⟩

/-- Claim C5: tier classification is monotone: a larger portfolio never gets
a smaller position cap or risk percentage, and a portfolio below 100 USD is
Micro with trading disabled and zero positions. -/
theorem tier_monotone (v1 v2 : ℚ) (h : v1 ≤ v2) :
    (CapitalTier.from_portfolio v1).max_positions ≤
      (CapitalTier.from_portfolio v2).max_positions
  ∧ (CapitalTier.from_portfolio v1).risk_per_trade_percent ≤
      (CapitalTier.from_portfolio v2).risk_per_trade_percent
  ∧ (v1 < 100 → (CapitalTier.from_portfolio v1).can_trade = false
      ∧ (CapitalTier.from_portfolio v1).max_positions = 0) := by
  unfold CapitalTier.from_portfolio
  refine ⟨?_, ?_, ?_⟩ <;>
    split_ifs <;>
      simp_all [CapitalTier.max_positions, CapitalTier.risk_per_trade_percent,
        CapitalTier.can_trade] <;>
      linarith

theorem tier_monotone_witness :
    (CapitalTier.from_portfolio 50).max_positions ≤
      (CapitalTier.from_portfolio 30000).max_positions
  ∧ (CapitalTier.from_portfolio 50).can_trade = false :=
  ⟨(tier_monotone 50 30000 (by norm_num)).1,
   ((tier_monotone 50 30000 (by norm_num)).2.2 (by norm_num)).1⟩

/-- Claim C6: below the effective cap, max_new_positions returns the minimum
of the remaining tier slots and max(capital_based, 1), hence always at least
one; at or above the cap it returns 0. -/
theorem max_new_positions_spec (cfg : Config) (total_portfolio : ℚ) (current_positions : ℕ) :
    (effective_cap_of cfg total_portfolio ≤ current_positions →
        max_new_positions cfg total_portfolio current_positions = 0)
  ∧ (current_positions < effective_cap_of cfg total_portfolio →
        max_new_positions cfg total_portfolio current_positions =
          min (effective_cap_of cfg total_portfolio - current_positions)
              (max (capital_based_of cfg total_portfolio current_positions) 1))
  ∧ (current_positions < effective_cap_of cfg total_portfolio →
        1 ≤ max_new_positions cfg total_portfolio current_positions) := by
  unfold max_new_positions
  refine ⟨fun h => if_pos h, fun h => if_neg (Nat.not_le.mpr h), fun h => ?_⟩
  rw [if_neg (Nat.not_le.mpr h)]
  exact le_min (by omega) (le_max_right _ _)

theorem max_new_positions_spec_witness : 1 ≤ max_new_positions cfg0 1000 0 :=
  (max_new_positions_spec cfg0 1000 0).2.2
    (by norm_num [effective_cap_of, TierParameters.for_portfolio,
      CapitalTier.from_portfolio, CapitalTier.max_positions, cfg0])

/-- Claim C8: for every 30-day volume the fee tier has round-trip cost twice
the taker fee, and the minimum profitable take-profit is the round trip plus
the target net profit. -/
theorem fee_round_trip_spec (volume_30d x : ℚ) :
    (FeeTier.from_volume volume_30d).round_trip_percent =
      2 * (FeeTier.from_volume volume_30d).taker_fee_percent
  ∧ (FeeTier.from_volume volume_30d).min_profitable_tp x =
      (FeeTier.from_volume volume_30d).round_trip_percent + x := by
  exact ⟨mul_comm _ _, rfl⟩

/-- Claim C9: min_position_for_profit returns the explicit f64::MAX sentinel
exactly when the expected move does not beat the round-trip fee, and
otherwise the positive-profit quotient. -/
theorem min_position_for_profit_spec (f : FeeTier) (expected_move_percent min_profit_usd : ℚ) :
    (expected_move_percent ≤ f.round_trip_percent →
        f.min_position_for_profit expected_move_percent min_profit_usd = f64MAX)
  ∧ (f.round_trip_percent < expected_move_percent →
        f.min_position_for_profit expected_move_percent min_profit_usd =
          min_profit_usd / ((expected_move_percent - f.round_trip_percent) / 100)) := by
  unfold FeeTier.min_position_for_profit
  constructor
  · intro h
    rw [if_pos (by linarith)]
  · intro h
    rw [if_neg (by simp; linarith)]

theorem min_position_for_profit_spec_witness :
    (FeeTier.from_volume 500).min_position_for_profit (12/10) 1 = f64MAX :=
  (min_position_for_profit_spec (FeeTier.from_volume 500) (12/10) 1).1
    (by norm_num [FeeTier.from_volume, FeeTier.round_trip_percent])

/-- Claim C10 (amended): incrementing the daily trade counter on a new day
restarts it at 1 and stamps the day; on the same day it adds one modulo 2^32
(u32 wrap-around); every other field is unchanged. -/
theorem increment_daily_trades_spec (s : TradingStateData) (today : String) :
    (s.last_trade_day ≠ some today →
        (increment_daily_trades s today).daily_trades = 1
        ∧ (increment_daily_trades s today).last_trade_day = some today)
  ∧ (s.last_trade_day = some today →
        (increment_daily_trades s today).daily_trades = (s.daily_trades + 1) % u32_size
        ∧ (increment_daily_trades s today).last_trade_day = some today)
  ∧ (increment_daily_trades s today).enabled = s.enabled
  ∧ (increment_daily_trades s today).positions = s.positions
  ∧ (increment_daily_trades s today).last_cycle_time = s.last_cycle_time
  ∧ (increment_daily_trades s today).total_trades = s.total_trades
  ∧ (increment_daily_trades s today).total_pnl = s.total_pnl
  ∧ (increment_daily_trades s today).consecutive_errors = s.consecutive_errors := by
  by_cases h : s.last_trade_day = some today <;>
    simp [increment_daily_trades, h, u32_size]

theorem increment_daily_trades_spec_witness :
    (increment_daily_trades s_fresh d0).daily_trades = 1
    ∧ (increment_daily_trades s_fresh d0).last_trade_day = some d0 :=
  (increment_daily_trades_spec s_fresh d0).1 (by simp [s_fresh])

/-- Claim C10 counterexample: with the same-day counter at u32::MAX, the
increment wraps to 0 instead of the old value plus one. -/
theorem increment_daily_trades_wrap_cex :
    (increment_daily_trades s_wrap d0).daily_trades ≠ s_wrap.daily_trades + 1 := by
  simp [increment_daily_trades, s_wrap, u32_size]


/-- Claim C4 (amended): with nonnegative available cash, the computed
position size never exceeds the per-position cap, the available cash, or the
post-reserve trading capital; and a capped size below the configured minimum
forces size 0 and can_trade = false. -/
theorem position_size_bounds (cfg : Config)
    (total_portfolio available_usd volatility_factor : ℚ)
    (hcash : 0 ≤ available_usd) :
    (calculate_position_size cfg total_portfolio available_usd volatility_factor).size ≤
      (calculate_position_size cfg total_portfolio available_usd volatility_factor).max_per_position
  ∧ (calculate_position_size cfg total_portfolio available_usd volatility_factor).size ≤
      available_usd
  ∧ (calculate_position_size cfg total_portfolio available_usd volatility_factor).size ≤
      (calculate_position_size cfg total_portfolio available_usd
        volatility_factor).available_after_reserve
  ∧ (capped_size_of cfg total_portfolio available_usd volatility_factor <
        cfg.min_position_usd →
      (calculate_position_size cfg total_portfolio available_usd volatility_factor).size = 0
      ∧ (calculate_position_size cfg total_portfolio available_usd
          volatility_factor).can_trade = false) := by
  by_cases hct : (TierParameters.for_portfolio total_portfolio).can_trade = false
  · simp [calculate_position_size, hct, hcash]
  · have hct' : (TierParameters.for_portfolio total_portfolio).can_trade = true := by
      simpa using hct
    have hmp : 0 ≤ max_per_position_of total_portfolio :=
      max_per_position_of_nonneg total_portfolio hct'
    have haft : 0 ≤ available_for_trading_of cfg total_portfolio := le_max_right _ _
    have hcap1 : capped_size_of cfg total_portfolio available_usd volatility_factor ≤
        max_per_position_of total_portfolio :=
      le_trans (min_le_left _ _) (le_trans (min_le_left _ _) (min_le_right _ _))
    have hcap2 : capped_size_of cfg total_portfolio available_usd volatility_factor ≤
        available_usd :=
      le_trans (min_le_left _ _) (min_le_right _ _)
    have hcap3 : capped_size_of cfg total_portfolio available_usd volatility_factor ≤
        available_for_trading_of cfg total_portfolio :=
      min_le_right _ _
    have hcap0 : 0 ≤ capped_size_of cfg total_portfolio available_usd volatility_factor :=
      capped_size_of_nonneg cfg total_portfolio available_usd volatility_factor hcash hct'
    simp only [calculate_position_size, hct, if_false]
    by_cases hfin : cfg.min_position_usd ≤
        capped_size_of cfg total_portfolio available_usd volatility_factor
    · simp only [hfin, if_true, if_pos]
      refine ⟨hcap1, hcap2, hcap3, fun hlt => absurd hfin (not_le.mpr hlt)⟩
    · simp only [hfin, if_false, if_neg]
      refine ⟨hmp, hcash, haft, fun _ => ⟨rfl, ?_⟩⟩
      have hpos : 0 < cfg.min_position_usd := lt_of_le_of_lt hcap0 (not_le.mp hfin)
      simp [decide_eq_false_iff_not, not_le]
      exact hpos

theorem position_size_bounds_witness :
    (calculate_position_size cfg0 1000 1000 1).size ≤ 1000 :=
  (position_size_bounds cfg0 1000 1000 1 (by norm_num)).2.1

/-- Claim C4 counterexample: with negative available cash (portfolio 1000,
cash -1000), the returned size is 0, which exceeds the available cash, so
the unrestricted claim fails. -/
theorem position_size_cash_cex :
    ¬ ((calculate_position_size cfg0 1000 (-1000) 1).size ≤ -1000) := by
  norm_num [calculate_position_size, capped_size_of, volatility_adjusted_of,
    risk_based_size_of, max_per_position_of, available_for_trading_of,
    TierParameters.for_portfolio, CapitalTier.from_portfolio, CapitalTier.can_trade,
    CapitalTier.risk_per_trade_percent, CapitalTier.max_position_percent, cfg0]


end Trading
